import Mathlib

/-
  Shallow embedding of the UHC eligibility app's token cache, token
  acquisition client and search orchestrator.

  Sources embedded:
  - src/src/lib/database.ts (class UHCApiClient): getTokenInfo,
    loadStoredToken, clearStoredToken, generateToken, ensureValidToken,
    searchEligibility (proxy-response handling).
  - src/server.js: POST /api/uhc/eligibility error relay.
  - src/src/App.tsx (PatientSearchForm): formatDateOfBirth, handleSubmit.

  Modelling conventions:
  - Time is milliseconds since epoch as Int; `Date.now()` is an explicit
    `now` parameter.
  - A JavaScript Date is `JSDate`: a valid instant or Invalid Date
    (comparisons against Invalid Date are false, as in JS, where they go
    through NaN).
  - localStorage is the `Storage` record. The stored expiry string is
    modelled by the instant it denotes: `none` stands for an absent key or
    an empty string (both falsy in the source's `storedToken && storedExpires`
    check), `some JSDate.invalid` for a non-empty string that
    `new Date(...)` cannot parse, `some (JSDate.instant t)` for a valid ISO
    timestamp.
  - Network calls are parameters: each operation takes the response the
    network would deliver and returns the new state plus its result.
  - JS truthiness of an optional string (`undefined`/empty are falsy) is
    `optTruthy`.
-/

namespace UHC

/-- A JavaScript Date: a valid instant in ms since epoch, or Invalid Date. -/
inductive JSDate where
  | invalid : JSDate
  | instant : Int → JSDate
deriving DecidableEq, Repr

/-- JS `<` on dates: false whenever either side is Invalid Date (NaN). -/
def JSDate.jsLt : JSDate → JSDate → Bool
  | .instant a, .instant b => a < b
  | _, _ => false

/-- JS `>=` on dates: false whenever either side is Invalid Date (NaN). -/
def JSDate.jsGe : JSDate → JSDate → Bool
  | .instant a, .instant b => b ≤ a
  | _, _ => false

/-- JS truthiness of an optional string: absent and empty are falsy. -/
def optTruthy : Option String → Bool
  | none => false
  | some s => s != ""

/-- JS `m || dflt` for an optional string field: absent or empty falls back. -/
def jsOrElse (m : Option String) (dflt : String) : String :=
  match m with
  | some s => if s = "" then dflt else s
  | none => dflt

/-- The two localStorage keys written by the token cache
(database.ts lines 212-213, 255-256, 281-282). -/
structure Storage where
  uhc_token : Option String
  uhc_token_expires : Option JSDate
deriving DecidableEq, Repr

/-- In-memory state of UHCApiClient (`token`, `tokenExpires`) together with
the localStorage it reads and writes. -/
structure ClientState where
  token : Option String
  tokenExpires : Option JSDate
  storage : Storage
deriving DecidableEq, Repr

/-- Return shape of UHCApiClient.getTokenInfo. -/
structure TokenInfo where
  token : Option String
  expires : Option JSDate
  isValid : Bool
deriving DecidableEq, Repr

/-- UHCApiClient.getTokenInfo (database.ts lines 306-320):
`isValid = !!(this.token && this.tokenExpires && new Date() < this.tokenExpires)`. -/
def getTokenInfo (s : ClientState) (now : Int) : TokenInfo :=
  { token := s.token
    expires := s.tokenExpires
    isValid := optTruthy s.token &&
      (match s.tokenExpires with
       | some e => JSDate.jsLt (.instant now) e
       | none => false) }

/-- UHCApiClient.clearStoredToken (database.ts lines 280-285): removes both
localStorage keys and nulls the in-memory pair. -/
def clearStoredToken (_s : ClientState) : ClientState :=
  { token := none
    tokenExpires := none
    storage := { uhc_token := none, uhc_token_expires := none } }

/-- The 5-minute skew buffer used by loadStoredToken and ensureValidToken. -/
def skewMs : Int := 5 * 60 * 1000

/-- UHCApiClient.loadStoredToken (database.ts lines 253-278): if both keys
are present (and the token string truthy), restore the pair into memory when
`new Date(Date.now() + 5*60*1000) < expiresDate`, otherwise clear storage;
with either key absent, leave the state unchanged and report false. -/
def loadStoredToken (s : ClientState) (now : Int) : ClientState × Bool :=
  match s.storage.uhc_token, s.storage.uhc_token_expires with
  | some tok, some exp =>
      if tok != "" then
        if JSDate.jsLt (.instant (now + skewMs)) exp then
          ({ s with token := some tok, tokenExpires := some exp }, true)
        else
          (clearStoredToken s, false)
      else (s, false)
  | _, _ => (s, false)

/-- Longest leading run of decimal digits of a character list. -/
def leadingDigits : List Char → List Char
  | [] => []
  | c :: cs => if c.isDigit then c :: leadingDigits cs else []

/-- Value of a list of decimal digits. -/
def digitsVal (l : List Char) : Nat :=
  l.foldl (fun acc c => acc * 10 + (c.toNat - 48)) 0

/-- Model of JavaScript `parseInt(s)` in base 10: skip leading whitespace,
take an optional sign and then the longest run of decimal digits; `none`
models NaN (no digits found). The `0x` radix-16 auto-detection is not
modelled; every input reaching it in this program is a decimal seconds
count. -/
def jsParseInt (s : String) : Option Int :=
  let cs := s.data.dropWhile (fun c => c = ' ' || c = '\t' || c = '\n' || c = '\r')
  let signAndRest : Int × List Char :=
    match cs with
    | '-' :: rest => (-1, rest)
    | '+' :: rest => (1, rest)
    | _ => (1, cs)
  let ds := leadingDigits signAndRest.2
  if ds.isEmpty then none
  else some (signAndRest.1 * (digitsVal ds : Int))

/-- The response the token endpoint fetch can deliver to generateToken:
a thrown network error, a non-2xx HTTP response (with the parsed body's
`error.message` field), a 2xx body with `success:false`, or a 2xx body with
`success:true` carrying `access_token` and an optional `expires_in`. -/
inductive TokenEndpoint where
  | networkFailure (msg : String)
  | httpFailure (status : Nat) (errMsg : Option String)
  | backendError (errMsg : Option String)
  | ok (access_token : String) (expires_in : Option String)
deriving DecidableEq, Repr

/-- Return shape of UHCApiClient.generateToken. -/
structure TokenResponse where
  success : Bool
  token : Option String
  expires_at : Option JSDate
  error : Option String
deriving DecidableEq, Repr

/-- The string handed to parseInt in database.ts line 206:
`tokenData.expires_in || '3600'` (absent or empty falls back to "3600"). -/
def rawExpiresIn : Option String → String
  | none => "3600"
  | some s => if s = "" then "3600" else s

/-- UHCApiClient.generateToken (database.ts lines 182-251). On the success
path it sets `token = "Bearer " + access_token`,
`tokenExpires = new Date(now + parseInt(expires_in || '3600') * 1000)` and
writes both localStorage keys. When parseInt yields NaN the Date is Invalid:
`setItem('uhc_token', ...)` still runs, but `tokenExpires.toISOString()`
throws RangeError ("Invalid time value"), which the surrounding catch turns
into a `Network error:` failure result, leaving the expiry key unwritten.
All failure branches leave the state unchanged. -/
def generateToken (s : ClientState) (now : Int) (resp : TokenEndpoint) :
    ClientState × TokenResponse :=
  match resp with
  | .ok accessToken expiresInField =>
      match jsParseInt (rawExpiresIn expiresInField) with
      | some n =>
          let tok := "Bearer " ++ accessToken
          let exp := JSDate.instant (now + n * 1000)
          ({ token := some tok
             tokenExpires := some exp
             storage := { uhc_token := some tok, uhc_token_expires := some exp } },
           { success := true, token := some tok, expires_at := some exp, error := none })
      | none =>
          let tok := "Bearer " ++ accessToken
          ({ token := some tok
             tokenExpires := some JSDate.invalid
             storage := { s.storage with uhc_token := some tok } },
           { success := false, token := none, expires_at := none
             error := some "Network error: Invalid time value" })
  | .backendError m =>
      (s, { success := false, token := none, expires_at := none
            error := some ("Backend error: " ++ jsOrElse m "Unknown error") })
  | .httpFailure st m =>
      (s, { success := false, token := none, expires_at := none
            error := some ("Token generation failed: " ++ toString st ++ " - " ++
              jsOrElse m "Unknown error") })
  | .networkFailure m =>
      (s, { success := false, token := none, expires_at := none
            error := some ("Network error: " ++ m) })

/-- The condition of the second guard in ensureValidToken (database.ts line
296): `!this.token || !this.tokenExpires ||
new Date(Date.now() + 5*60*1000) >= this.tokenExpires`. A Date object is
truthy even when Invalid, so only absence fails the middle test. -/
def tokenNeedsRefresh (s : ClientState) (now : Int) : Bool :=
  !optTruthy s.token ||
    (match s.tokenExpires with
     | none => true
     | some e => JSDate.jsGe (.instant (now + skewMs)) e)

/-- UHCApiClient.ensureValidToken (database.ts lines 287-304). Returns
(new state, success, whether generateToken was invoked). `resp` is the
response the token endpoint would give if an acquisition happens. -/
def ensureValidToken (s : ClientState) (now : Int) (resp : TokenEndpoint) :
    ClientState × Bool × Bool :=
  if optTruthy s.token then
    if tokenNeedsRefresh s now then
      let q := generateToken s now resp
      (q.1, q.2.success, true)
    else (s, true, false)
  else
    let p := loadStoredToken s now
    if p.2 then
      if tokenNeedsRefresh p.1 now then
        let q := generateToken p.1 now resp
        (q.1, q.2.success, true)
      else (p.1, true, false)
    else
      let q := generateToken p.1 now resp
      (q.1, q.2.success, true)

/-- Cache-storage coherence: the in-memory pair agrees with the persisted
pair, or no token is loaded in memory. -/
def coherent (s : ClientState) : Prop :=
  s.token = none ∨
    (s.token = s.storage.uhc_token ∧ s.tokenExpires = s.storage.uhc_token_expires)

/-- One entry of a policy's `patientInfo` array in the eligibility
response (the fields App.tsx reads: lines 795-797, 803, 814, 820). -/
structure PatientInfo where
  firstName : Option String
  middleName : Option String
  lastName : Option String
  patientKey : Option String
deriving DecidableEq, Repr

/-- The `insuranceInfo` object of a policy (fields read at App.tsx 814-819). -/
structure InsuranceInfo where
  memberId : Option String
  payerId : Option String
deriving DecidableEq, Repr

/-- One entry of `memberPolicies` in the eligibility response. -/
structure Policy where
  patientInfo : List PatientInfo
  insuranceInfo : Option InsuranceInfo
  transactionId : Option String
deriving DecidableEq, Repr

/-- The eligibility response body as far as the orchestrator reads it. -/
structure EligibilityData where
  memberPolicies : List Policy
deriving DecidableEq, Repr

/-- The `error` object of an APIResponse (database.ts lines 164-171). -/
structure APIError where
  message : Option String
  status : Option Nat
deriving DecidableEq, Repr

/-- Result shape of the UHCApiClient search methods. -/
inductive APIResponse (α : Type) where
  | ok (data : α)
  | err (e : APIError)
deriving DecidableEq, Repr

/-- Result of db.savePatientSearch as handleSubmit reads it: the success
flag and `data?.id` (absent on failure). -/
structure DbResult where
  success : Bool
  id : Option String
deriving DecidableEq, Repr

/-- The external responses one search submission can consume: the
eligibility result, the coverage and member-card results (used only if
those calls are made), and the persistence result. Coverage and
member-card payloads are opaque blobs to the orchestrator; they are
modelled as strings. -/
structure SearchEnv where
  eligibility : APIResponse EligibilityData
  coverage : APIResponse String
  memberCard : APIResponse String
  dbSave : DbResult
deriving DecidableEq, Repr

/-- The object handleSubmit passes to onSearchComplete (App.tsx 846-852). -/
structure SearchResults where
  eligibility : EligibilityData
  coverage : Option String
  memberCard : Option String
  patientName : String
  searchId : Option String
deriving DecidableEq, Repr

/-- Terminal outcome of one search submission: the catch branch setting the
error banner, or the onSearchComplete call. -/
inductive SearchOutcome where
  | failed (msg : String)
  | completed (res : SearchResults)
deriving DecidableEq, Repr

/-- Record of which network calls the submission made: the dateOfBirth sent
with the eligibility request (none when no eligibility call was made), and
whether the coverage and member-card lookups were attempted. -/
structure CallTrace where
  eligDob : Option String
  coverageAttempted : Bool
  memberCardAttempted : Bool
deriving DecidableEq, Repr

/-- JS `String.prototype.padStart(n, c)`. -/
def padStart (s : String) (n : Nat) (c : Char) : String :=
  if n ≤ s.length then s
  else String.mk (List.replicate (n - s.length) c) ++ s

/-- Splitting of a character list at every occurrence of `sep`. -/
def splitCharList (sep : Char) : List Char → List (List Char)
  | [] => [[]]
  | c :: cs =>
      let rest := splitCharList sep cs
      if c = sep then [] :: rest
      else
        match rest with
        | r :: rs => (c :: r) :: rs
        | [] => [[c]]

/-- JS `s.split(sep)` for a single-character separator, no limit:
`"".split(sep) = [""]`, and a string without the separator yields the
one-element list holding the whole string. -/
def jsSplit (s : String) (sep : Char) : List String :=
  (splitCharList sep s.data).map String.mk

/-- An ASCII whitespace character (the kinds occurring in this program's
inputs; JS trims a wider Unicode class). -/
def isJsSpace (c : Char) : Bool :=
  c = ' ' || c = '\t' || c = '\n' || c = '\r'

/-- JS `s.trim()`: strip whitespace from both ends. -/
def jsTrim (s : String) : String :=
  String.mk (((s.data.dropWhile isJsSpace).reverse.dropWhile isJsSpace).reverse)

/-- formatDateOfBirth (App.tsx lines 746-754): convert `MM/DD/YYYY` to
`YYYY-MM-DD`; any input that does not split on `/` into exactly three parts
is returned unchanged. -/
def formatDateOfBirth (dateString : String) : String :=
  match jsSplit dateString '/' with
  | [month, day, year] =>
      year ++ "-" ++ padStart month 2 '0' ++ "-" ++ padStart day 2 '0'
  | _ => dateString

/-- Patient display name (App.tsx lines 796-798):
`` `${firstName || ''} ${middleName || ''} ${lastName || ''}`.trim() `` when a
first patientInfo entry exists, else "Unknown Patient". -/
def patientNameOf (pi : Option PatientInfo) : String :=
  match pi with
  | some p =>
      jsTrim ((p.firstName.getD "") ++ " " ++ (p.middleName.getD "") ++ " " ++
        (p.lastName.getD ""))
  | none => "Unknown Patient"

/-- Outcome of the enrichment block (App.tsx lines 800-827). -/
structure EnrichOutcome where
  coverageData : Option String
  memberCardData : Option String
  coverageAttempted : Bool
  memberCardAttempted : Bool
deriving DecidableEq, Repr

/-- The enrichment block of handleSubmit (App.tsx lines 800-827): with a
first policy whose `patientKey` and `transactionId` are truthy, attempt the
coverage call (keeping its data only on success); inside that branch,
attempt the member-card call when `insuranceInfo?.memberId`,
`insuranceInfo?.payerId` and `patientInfo?.firstName` are all truthy. -/
def enrich (eligibilityData : EligibilityData) (env : SearchEnv) : EnrichOutcome :=
  match eligibilityData.memberPolicies.head? with
  | some policy =>
      let pInfo := policy.patientInfo.head?
      let patientKey := pInfo.bind PatientInfo.patientKey
      let transactionId := policy.transactionId
      if optTruthy patientKey && optTruthy transactionId then
        let coverageData := match env.coverage with
          | .ok d => some d
          | .err _ => none
        let cardGate :=
          (match policy.insuranceInfo with
           | some ii => optTruthy ii.memberId && optTruthy ii.payerId
           | none => false) &&
          optTruthy (pInfo.bind PatientInfo.firstName)
        if cardGate then
          let memberCardData := match env.memberCard with
            | .ok d => some d
            | .err _ => none
          { coverageData := coverageData, memberCardData := memberCardData
            coverageAttempted := true, memberCardAttempted := true }
        else
          { coverageData := coverageData, memberCardData := none
            coverageAttempted := true, memberCardAttempted := false }
      else
        { coverageData := none, memberCardData := none
          coverageAttempted := false, memberCardAttempted := false }
  | none =>
      { coverageData := none, memberCardData := none
        coverageAttempted := false, memberCardAttempted := false }

/-- PatientSearchForm.handleSubmit (App.tsx lines 756-860), with the
network and persistence replies supplied by `env` and the token-validity
check's result by `tokenIsValid`. A failed eligibility lookup throws
`eligibilityResult.error?.message || 'Failed to search eligibility'`, which
the catch turns into the error banner; a failed persistence write is only
logged and onSearchComplete still runs. -/
def handleSubmit (memberId dateOfBirth : String) (tokenIsValid : Bool)
    (env : SearchEnv) : SearchOutcome × CallTrace :=
  if memberId = "" || dateOfBirth = "" then
    (.failed "Member ID and Date of Birth are required",
     { eligDob := none, coverageAttempted := false, memberCardAttempted := false })
  else if !tokenIsValid then
    (.failed "OAuth token is required. Please generate a token first.",
     { eligDob := none, coverageAttempted := false, memberCardAttempted := false })
  else
    let dob := formatDateOfBirth dateOfBirth
    match env.eligibility with
    | .err e =>
        (.failed (jsOrElse e.message "Failed to search eligibility"),
         { eligDob := some dob, coverageAttempted := false
           memberCardAttempted := false })
    | .ok eligibilityData =>
        let pInfo := eligibilityData.memberPolicies.head?.bind
          (fun p => p.patientInfo.head?)
        let outcome := enrich eligibilityData env
        (.completed
          { eligibility := eligibilityData
            coverage := outcome.coverageData
            memberCard := outcome.memberCardData
            patientName := patientNameOf pInfo
            searchId := env.dbSave.id },
         { eligDob := some dob
           coverageAttempted := outcome.coverageAttempted
           memberCardAttempted := outcome.memberCardAttempted })

/-- The reply of the external eligibility API as server.js sees it: a 2xx
response with a parsed body, or a non-2xx response whose raw body text is
`bodyText`. -/
inductive UpstreamResponse where
  | ok (data : EligibilityData)
  | err (status : Nat) (bodyText : String)
deriving DecidableEq, Repr

/-- The error envelope server.js sends for a relayed failure. -/
structure ProxyError where
  status : Nat
  message : String
deriving DecidableEq, Repr

/-- A response of the proxy's eligibility endpoint as the client parses it. -/
inductive ProxyResult where
  | ok (data : EligibilityData)
  | err (httpStatus : Nat) (e : ProxyError)
deriving DecidableEq, Repr

/-- POST /api/uhc/eligibility relay (server.js lines 115-132): on a non-ok
upstream response, reply with the same status and
`{success:false, error:{status, message: responseText}}` where
`responseText` is the raw upstream body text. -/
def serverEligibilityRelay (upstream : UpstreamResponse) : ProxyResult :=
  match upstream with
  | .ok d => .ok d
  | .err status bodyText => .err status { status := status, message := bodyText }

/-- UHCApiClient.searchEligibility's handling of the proxy response
(database.ts lines 349-371), given a valid token: on a non-ok proxy
response the surfaced message is
`errorData.error?.message || 'API error: ' + response.status`. -/
def searchEligibilityResult (resp : ProxyResult) : APIResponse EligibilityData :=
  match resp with
  | .ok d => .ok d
  | .err httpStatus e =>
      .err { message := some (jsOrElse (some e.message)
               ("API error: " ++ toString httpStatus))
             status := some httpStatus }

/-- A client state with no token in memory and empty localStorage (the
state of a fresh browser profile). -/
def s₀ : ClientState :=
  { token := none
    tokenExpires := none
    storage := { uhc_token := none, uhc_token_expires := none } }

/- ===================== Helper lemmas ===================== -/

theorem bearer_ne_empty (a : String) : ("Bearer " ++ a) ≠ "" := by
  intro h
  have h2 : ("Bearer " ++ a).length = 0 := by rw [h]; rfl
  rw [String.length_append] at h2
  have h3 : "Bearer ".length = 7 := rfl
  omega

/- ===================== Claim theorems ===================== -/

/-- C1 (counterexample): the claim demands that a cached token whose
`expiresAt` is `now + 4` minutes reports invalid (`isValid` iff
`now + 5min < expiresAt`), but `getTokenInfo` compares without any skew
buffer and reports valid at that very input. -/
theorem getTokenInfo_skew_counterexample :
    (getTokenInfo
      { token := some "Bearer T"
        tokenExpires := some (.instant 240000)
        storage := { uhc_token := none, uhc_token_expires := none } } 0).isValid = true
    ∧ ¬ ((0 : Int) + 5 * 60 * 1000 < 240000) := by decide

/-- C1 (amended): `getTokenInfo().isValid` is true iff a non-empty token is
cached and a valid expiry instant is cached with `now < expiresAt` — no
5-minute skew buffer enters this check. -/
theorem getTokenInfo_isValid_iff (s : ClientState) (now : Int) :
    (getTokenInfo s now).isValid = true ↔
      ((∃ t, s.token = some t ∧ t ≠ "") ∧
       (∃ e, s.tokenExpires = some (JSDate.instant e) ∧ now < e)) := by
  rcases s with ⟨tok, texp, st⟩
  cases tok with
  | none => simp [getTokenInfo, optTruthy]
  | some t =>
    cases texp with
    | none => simp [getTokenInfo]
    | some e =>
      cases e with
      | invalid => simp [getTokenInfo, JSDate.jsLt]
      | instant m =>
        simp [getTokenInfo, optTruthy, JSDate.jsLt]

/-- C6: restoring a persisted token whose expiry fails the 5-minute
skew-buffer test yields no token: memory stays empty and both storage keys
are cleared. -/
theorem loadStoredToken_stale (s : ClientState) (now : Int) (tok : String) (ems : Int)
    (htok : s.storage.uhc_token = some tok) (hne : tok ≠ "")
    (hexp : s.storage.uhc_token_expires = some (JSDate.instant ems))
    (hstale : ¬ (now + skewMs < ems)) :
    loadStoredToken s now =
      ({ token := none
         tokenExpires := none
         storage := { uhc_token := none, uhc_token_expires := none } }, false) := by
  have hcond : JSDate.jsLt (.instant (now + skewMs)) (.instant ems) = false := by
    simpa [JSDate.jsLt] using hstale
  unfold loadStoredToken
  rw [htok, hexp]
  simp [bne_iff_ne, hne, hcond, clearStoredToken]

/-- C6 witness: a stored token expiring at instant 100 restored at time 0
is discarded and storage is cleared. -/
theorem loadStoredToken_stale_witness :
    loadStoredToken
      { token := none
        tokenExpires := none
        storage := { uhc_token := some "Bearer X"
                     uhc_token_expires := some (.instant 100) } } 0
    = ({ token := none
         tokenExpires := none
         storage := { uhc_token := none, uhc_token_expires := none } }, false) :=
  loadStoredToken_stale _ 0 "Bearer X" 100 rfl (by decide) rfl (by decide)

/-- C7 (counterexample): the claim says the default 3600 applies whenever
`expires_in` is unparseable, but `parseInt('abc')` is NaN, the expiry
becomes an Invalid Date (not now + 3600 s), and the acquisition even
reports failure because `toISOString()` throws on the Invalid Date. -/
theorem generateToken_unparseable_counterexample :
    (generateToken s₀ 0 (.ok "T" (some "abc"))).1.tokenExpires = some JSDate.invalid
    ∧ (generateToken s₀ 0 (.ok "T" (some "abc"))).2.success = false
    ∧ (generateToken s₀ 0 (.ok "T" (some "abc"))).1.tokenExpires
        ≠ some (.instant (0 + 3600 * 1000)) := by decide

/-- C7 (amended): whenever `parseInt(expires_in || '3600')` parses to `n`
(in particular, an absent or empty `expires_in` falls back to the string
"3600"), the acquisition succeeds and the cached token's absolute expiry is
`now + n` seconds. -/
theorem generateToken_expiry (s : ClientState) (now : Int) (a : String)
    (ei : Option String) (n : Int)
    (h : jsParseInt (rawExpiresIn ei) = some n) :
    (generateToken s now (.ok a ei)).1.tokenExpires
        = some (.instant (now + n * 1000))
    ∧ (generateToken s now (.ok a ei)).2.success = true
    ∧ (generateToken s now (.ok a ei)).2.expires_at
        = some (.instant (now + n * 1000))
    ∧ rawExpiresIn none = "3600" := by
  refine ⟨?_, ?_, ?_, rfl⟩ <;> simp [generateToken, h]

/-- C7 witness: with `expires_in` absent, the default applies and the
expiry is now + 3600 seconds. -/
theorem generateToken_expiry_witness :
    (generateToken s₀ 0 (.ok "T" none)).1.tokenExpires
      = some (.instant (0 + 3600 * 1000)) :=
  (generateToken_expiry s₀ 0 "T" none 3600 (by decide)).1

/-- C4: from any starting state, if a call to ensureValidToken acquired a
fresh token (token endpoint answering success with `expires_in = "3600"`),
it succeeded, and an immediately following second call performs no second
network acquisition and returns success with the cached state unchanged —
whatever the token endpoint would have answered the second time. -/
theorem ensureValidToken_idempotent (s : ClientState) (now : Int) (a : String)
    (resp2 : TokenEndpoint)
    (hacq : (ensureValidToken s now (.ok a (some "3600"))).2.2 = true) :
    (ensureValidToken s now (.ok a (some "3600"))).2.1 = true
    ∧ ensureValidToken (ensureValidToken s now (.ok a (some "3600"))).1 now resp2
        = ((ensureValidToken s now (.ok a (some "3600"))).1, true, false) := by
  have hgen : ∀ s' : ClientState, generateToken s' now (.ok a (some "3600"))
      = ({ token := some ("Bearer " ++ a)
           tokenExpires := some (.instant (now + 3600000))
           storage := { uhc_token := some ("Bearer " ++ a)
                        uhc_token_expires := some (.instant (now + 3600000)) } },
         { success := true
           token := some ("Bearer " ++ a)
           expires_at := some (.instant (now + 3600000))
           error := none }) := fun _ => rfl
  have ht : optTruthy (some ("Bearer " ++ a)) = true := by
    simp [optTruthy, bearer_ne_empty a]
  have hfresh : ∀ resp' : TokenEndpoint,
      ensureValidToken
        { token := some ("Bearer " ++ a)
          tokenExpires := some (.instant (now + 3600000))
          storage := { uhc_token := some ("Bearer " ++ a)
                       uhc_token_expires := some (.instant (now + 3600000)) } }
        now resp'
      = ({ token := some ("Bearer " ++ a)
           tokenExpires := some (.instant (now + 3600000))
           storage := { uhc_token := some ("Bearer " ++ a)
                        uhc_token_expires := some (.instant (now + 3600000)) } },
         true, false) := by
    intro resp'
    simp [ensureValidToken, ht, tokenNeedsRefresh, JSDate.jsGe, skewMs]
  have hout : ensureValidToken s now (.ok a (some "3600"))
      = ({ token := some ("Bearer " ++ a)
           tokenExpires := some (.instant (now + 3600000))
           storage := { uhc_token := some ("Bearer " ++ a)
                        uhc_token_expires := some (.instant (now + 3600000)) } },
         true, true) := by
    unfold ensureValidToken at hacq ⊢
    by_cases h1 : optTruthy s.token = true
    · by_cases h2 : tokenNeedsRefresh s now = true
      · simp [h1, h2, hgen]
      · simp [h1, h2] at hacq
    · by_cases h3 : (loadStoredToken s now).2 = true
      · by_cases h4 : tokenNeedsRefresh (loadStoredToken s now).1 now = true
        · simp [h1, h3, h4, hgen]
        · simp [h1, h3, h4] at hacq
      · simp [h1, h3, hgen]
  rw [hout]
  exact ⟨rfl, hfresh resp2⟩

/-- C4 witness: starting from the empty state at time 0, the first call
acquires; the second call reuses the cache, succeeds and acquires nothing,
even though the endpoint would now fail. -/
theorem ensureValidToken_idempotent_witness :
    (ensureValidToken s₀ 0 (.ok "T" (some "3600"))).2.1 = true
    ∧ ensureValidToken (ensureValidToken s₀ 0 (.ok "T" (some "3600"))).1 0
        (.networkFailure "down")
        = ((ensureValidToken s₀ 0 (.ok "T" (some "3600"))).1, true, false) :=
  ensureValidToken_idempotent s₀ 0 "T" (.networkFailure "down") (by decide)

/-- C9: every token cache operation preserves cache-storage coherence:
starting from a coherent state, clearStoredToken and loadStoredToken leave
a coherent state, and so does generateToken whenever it reports success
(its coherence needs no starting assumption: a successful acquisition
overwrites both the memory pair and both storage keys with the same
values). Coherence: memory and storage hold the same token value and
expiry instant, or no token is loaded in memory. -/
theorem tokenCache_coherent (s : ClientState) (now : Int) (resp : TokenEndpoint)
    (hs : coherent s) :
    coherent (clearStoredToken s)
    ∧ coherent (loadStoredToken s now).1
    ∧ ((generateToken s now resp).2.success = true →
        coherent (generateToken s now resp).1) := by
  refine ⟨Or.inl rfl, ?_, ?_⟩
  · unfold loadStoredToken
    rcases htok : s.storage.uhc_token with _ | tok
    · simpa [htok] using hs
    · rcases hexp : s.storage.uhc_token_expires with _ | exp
      · simpa [htok, hexp] using hs
      · by_cases hne : (tok != "") = true
        · by_cases hlt : JSDate.jsLt (.instant (now + skewMs)) exp = true
          · simp only [htok, hexp, hne, hlt, if_true]
            right
            refine ⟨?_, ?_⟩ <;> simp [htok, hexp]
          · simp only [htok, hexp, hne, hlt, if_true, Bool.not_eq_true] at *
            simp [hlt, clearStoredToken, coherent]
        · simp only [htok, hexp, hne, Bool.not_eq_true] at *
          simpa [hne] using hs
  · intro hsucc
    cases resp with
    | networkFailure m => simpa [generateToken] using hs
    | httpFailure st m => simpa [generateToken] using hs
    | backendError m => simpa [generateToken] using hs
    | ok a ei =>
      rcases hp : jsParseInt (rawExpiresIn ei) with _ | n
      · simp [generateToken, hp] at hsucc
      · simp only [generateToken, hp]
        exact Or.inr ⟨rfl, rfl⟩

/-- C9 witness: a coherent state (token in memory matching storage) stays
coherent under all three operations. -/
theorem tokenCache_coherent_witness :
    coherent (clearStoredToken
      { token := some "Bearer T"
        tokenExpires := some (.instant 9000000)
        storage := { uhc_token := some "Bearer T"
                     uhc_token_expires := some (.instant 9000000) } })
    ∧ coherent (loadStoredToken
      { token := some "Bearer T"
        tokenExpires := some (.instant 9000000)
        storage := { uhc_token := some "Bearer T"
                     uhc_token_expires := some (.instant 9000000) } } 0).1
    ∧ ((generateToken
      { token := some "Bearer T"
        tokenExpires := some (.instant 9000000)
        storage := { uhc_token := some "Bearer T"
                     uhc_token_expires := some (.instant 9000000) } } 0
        (.ok "U" none)).2.success = true →
      coherent (generateToken
      { token := some "Bearer T"
        tokenExpires := some (.instant 9000000)
        storage := { uhc_token := some "Bearer T"
                     uhc_token_expires := some (.instant 9000000) } } 0
        (.ok "U" none)).1) :=
  tokenCache_coherent _ 0 (.ok "U" none) (Or.inr ⟨rfl, rfl⟩)

theorem insurance_gate_eq (o : Option InsuranceInfo) :
    (match o with
     | some ii => optTruthy ii.memberId && optTruthy ii.payerId
     | none => false)
    = (optTruthy (o.bind InsuranceInfo.memberId)
        && optTruthy (o.bind InsuranceInfo.payerId)) := by
  cases o <;> simp [optTruthy]

theorem enrich_env_eq (d : EligibilityData) (env env' : SearchEnv)
    (hc : env.coverage = env'.coverage) (hm : env.memberCard = env'.memberCard) :
    enrich d env = enrich d env' := by
  unfold enrich
  rw [hc, hm]

/-- C2 (counterexample): with the external eligibility API answering HTTP
500 and body `{"message":"member not found"}`, the orchestrator failure
message is the whole raw body text relayed by the proxy, not the bare
"member not found" the claim requires. -/
theorem eligibility_error_message_counterexample :
    (handleSubmit "M1" "01/01/1980" true
      { eligibility := searchEligibilityResult (serverEligibilityRelay
          (.err 500 "\x7b\"message\":\"member not found\"\x7d"))
        coverage := .err { message := none, status := none }
        memberCard := .err { message := none, status := none }
        dbSave := { success := false, id := none } }).1
      = .failed "\x7b\"message\":\"member not found\"\x7d"
    ∧ "\x7b\"message\":\"member not found\"\x7d" ≠ "member not found" := by decide

/-- C2 (amended): for a non-2xx upstream eligibility response with any
nonempty raw body text, the orchestrated search fails and the failure
message surfaced to the caller is that raw body text verbatim: the proxy
puts the whole serialized body in `error.message`, and the client and the
form surface it unchanged. -/
theorem eligibility_error_message_relay (memberId dob body : String)
    (status : Nat) (cov card : APIResponse String) (dbs : DbResult)
    (h1 : memberId ≠ "") (h2 : dob ≠ "") (hb : body ≠ "") :
    (handleSubmit memberId dob true
      { eligibility := searchEligibilityResult
          (serverEligibilityRelay (.err status body))
        coverage := cov
        memberCard := card
        dbSave := dbs }).1 = .failed body := by
  simp [handleSubmit, h1, h2, serverEligibilityRelay, searchEligibilityResult,
    jsOrElse, hb]

/-- C2 witness: a concrete 500 relay with body "boom" surfaces "boom". -/
theorem eligibility_error_message_relay_witness :
    (handleSubmit "M9" "02/02/1990" true
      { eligibility := searchEligibilityResult
          (serverEligibilityRelay (.err 500 "boom"))
        coverage := .err { message := none, status := none }
        memberCard := .err { message := none, status := none }
        dbSave := { success := true, id := some "i" } }).1 = .failed "boom" :=
  eligibility_error_message_relay "M9" "02/02/1990" "boom" 500 _ _ _
    (by decide) (by decide) (by decide)

/-- C3 (counterexample): an eligibility response whose first policy has
memberId, payerId, firstName and transactionId all present (and the
submitted dateOfBirth nonempty) but no patientKey: the claim's five gating
fields are all present, yet the member-card lookup is not attempted —
the gate also requires patientKey, because it is nested inside the
coverage branch. The search still completes. -/
theorem memberCard_gating_counterexample :
    (handleSubmit "M1" "01/02/1980" true
      { eligibility := .ok { memberPolicies := [
          { patientInfo := [{ firstName := some "John"
                              middleName := none
                              lastName := some "Doe"
                              patientKey := none }]
            insuranceInfo := some { memberId := some "M1", payerId := some "P1" }
            transactionId := some "TX1" }] }
        coverage := .ok "cov"
        memberCard := .ok "card"
        dbSave := { success := true, id := some "id1" } }).2.memberCardAttempted
      = false
    ∧ optTruthy (some "M1") = true
    ∧ optTruthy (some "P1") = true
    ∧ optTruthy (some "John") = true
    ∧ optTruthy (some "TX1") = true
    ∧ "01/02/1980" ≠ ""
    ∧ (handleSubmit "M1" "01/02/1980" true
      { eligibility := .ok { memberPolicies := [
          { patientInfo := [{ firstName := some "John"
                              middleName := none
                              lastName := some "Doe"
                              patientKey := none }]
            insuranceInfo := some { memberId := some "M1", payerId := some "P1" }
            transactionId := some "TX1" }] }
        coverage := .ok "cov"
        memberCard := .ok "card"
        dbSave := { success := true, id := some "id1" } }).1
      = .completed
        { eligibility := { memberPolicies := [
            { patientInfo := [{ firstName := some "John"
                                middleName := none
                                lastName := some "Doe"
                                patientKey := none }]
              insuranceInfo := some { memberId := some "M1", payerId := some "P1" }
              transactionId := some "TX1" }] }
          coverage := none
          memberCard := none
          patientName := "John  Doe"
          searchId := some "id1" } := by decide

/-- C3 (amended): in a search that passed validation and the token check
and whose eligibility lookup succeeded, the member-card lookup is attempted
iff the first policy exists and its patientKey, transactionId, insurance
memberId, insurance payerId and patient firstName are all present and
non-empty (dateOfBirth is always present here, enforced by input
validation); and whatever the gate decides, the search still completes. -/
theorem memberCard_gating (memberId dob : String) (env : SearchEnv)
    (d : EligibilityData)
    (h1 : memberId ≠ "") (h2 : dob ≠ "") (he : env.eligibility = .ok d) :
    ((handleSubmit memberId dob true env).2.memberCardAttempted = true ↔
      (∃ policy, d.memberPolicies.head? = some policy
        ∧ optTruthy (policy.patientInfo.head?.bind PatientInfo.patientKey) = true
        ∧ optTruthy policy.transactionId = true
        ∧ optTruthy (policy.insuranceInfo.bind InsuranceInfo.memberId) = true
        ∧ optTruthy (policy.insuranceInfo.bind InsuranceInfo.payerId) = true
        ∧ optTruthy (policy.patientInfo.head?.bind PatientInfo.firstName) = true))
    ∧ ∃ res, (handleSubmit memberId dob true env).1 = .completed res := by
  have hmain : (handleSubmit memberId dob true env).2.memberCardAttempted
      = (enrich d env).memberCardAttempted := by
    simp [handleSubmit, h1, h2, he]
  have hdone : ∃ res, (handleSubmit memberId dob true env).1 = .completed res := by
    simp [handleSubmit, h1, h2, he]
  refine ⟨?_, hdone⟩
  rw [hmain]
  unfold enrich
  rcases hp : d.memberPolicies.head? with _ | policy
  · simp
  · simp only [hp, insurance_gate_eq]
    by_cases hA : optTruthy (policy.patientInfo.head?.bind PatientInfo.patientKey) = true <;>
    by_cases hB : optTruthy policy.transactionId = true <;>
    by_cases hC : optTruthy (policy.insuranceInfo.bind InsuranceInfo.memberId) = true <;>
    by_cases hD : optTruthy (policy.insuranceInfo.bind InsuranceInfo.payerId) = true <;>
    by_cases hE : optTruthy (policy.patientInfo.head?.bind PatientInfo.firstName) = true <;>
      simp [hA, hB, hC, hD, hE]

/-- C3 witness: with every gate field (patientKey included) present, the
member-card lookup is attempted and the search completes. -/
theorem memberCard_gating_witness :
    ((handleSubmit "M1" "01/02/1980" true
      { eligibility := .ok { memberPolicies := [
          { patientInfo := [{ firstName := some "John"
                              middleName := none
                              lastName := some "Doe"
                              patientKey := some "PK1" }]
            insuranceInfo := some { memberId := some "M1", payerId := some "P1" }
            transactionId := some "TX1" }] }
        coverage := .ok "cov"
        memberCard := .ok "card"
        dbSave := { success := true, id := some "id1" } }).2.memberCardAttempted
      = true ↔
      (∃ policy, ({ memberPolicies := [
          { patientInfo := [{ firstName := some "John"
                              middleName := none
                              lastName := some "Doe"
                              patientKey := some "PK1" }]
            insuranceInfo := some { memberId := some "M1", payerId := some "P1" }
            transactionId := some "TX1" }] } : EligibilityData).memberPolicies.head?
          = some policy
        ∧ optTruthy (policy.patientInfo.head?.bind PatientInfo.patientKey) = true
        ∧ optTruthy policy.transactionId = true
        ∧ optTruthy (policy.insuranceInfo.bind InsuranceInfo.memberId) = true
        ∧ optTruthy (policy.insuranceInfo.bind InsuranceInfo.payerId) = true
        ∧ optTruthy (policy.patientInfo.head?.bind PatientInfo.firstName) = true))
    ∧ ∃ res, (handleSubmit "M1" "01/02/1980" true
      { eligibility := .ok { memberPolicies := [
          { patientInfo := [{ firstName := some "John"
                              middleName := none
                              lastName := some "Doe"
                              patientKey := some "PK1" }]
            insuranceInfo := some { memberId := some "M1", payerId := some "P1" }
            transactionId := some "TX1" }] }
        coverage := .ok "cov"
        memberCard := .ok "card"
        dbSave := { success := true, id := some "id1" } }).1 = .completed res :=
  memberCard_gating "M1" "01/02/1980" _ _ (by decide) (by decide) rfl

/-- C5: when the eligibility lookup succeeds but the first policy's
patientKey is absent (or empty), the orchestrated result carries the
eligibility data, carries no coverage data, and the search still reports
overall success. -/
theorem enrichment_independence (memberId dob : String) (env : SearchEnv)
    (d : EligibilityData) (policy : Policy)
    (h1 : memberId ≠ "") (h2 : dob ≠ "") (he : env.eligibility = .ok d)
    (hp : d.memberPolicies.head? = some policy)
    (hk : optTruthy (policy.patientInfo.head?.bind PatientInfo.patientKey)
      = false) :
    ∃ res, (handleSubmit memberId dob true env).1 = .completed res
      ∧ res.eligibility = d ∧ res.coverage = none := by
  have henr : enrich d env =
      { coverageData := none, memberCardData := none
        coverageAttempted := false, memberCardAttempted := false } := by
    unfold enrich
    simp [hp, hk]
  refine ⟨{ eligibility := d
            coverage := none
            memberCard := none
            patientName := patientNameOf
              (d.memberPolicies.head?.bind (fun p => p.patientInfo.head?))
            searchId := env.dbSave.id }, ?_, rfl, rfl⟩
  simp [handleSubmit, h1, h2, he, henr]

/-- C5 witness: a first policy without patientKey yields a completed search
holding the eligibility data and no coverage data. -/
theorem enrichment_independence_witness :
    ∃ res, (handleSubmit "M2" "03/04/1985" true
      { eligibility := .ok { memberPolicies := [
          { patientInfo := [{ firstName := some "Ann"
                              middleName := none
                              lastName := some "Lee"
                              patientKey := none }]
            insuranceInfo := some { memberId := some "M2", payerId := some "P2" }
            transactionId := some "TX2" }] }
        coverage := .ok "cov"
        memberCard := .ok "card"
        dbSave := { success := true, id := some "id2" } }).1 = .completed res
      ∧ res.eligibility = { memberPolicies := [
          { patientInfo := [{ firstName := some "Ann"
                              middleName := none
                              lastName := some "Lee"
                              patientKey := none }]
            insuranceInfo := some { memberId := some "M2", payerId := some "P2" }
            transactionId := some "TX2" }] }
      ∧ res.coverage = none :=
  enrichment_independence "M2" "03/04/1985" _ _ _
    (by decide) (by decide) rfl rfl (by decide)

/-- C8: a failed persistence write is non-fatal: the search still reports
overall success, and the eligibility, coverage and member-card data handed
to the caller are the same as in the identical run whose persistence write
succeeds. -/
theorem persistence_failure_nonfatal (memberId dob : String) (env : SearchEnv)
    (d : EligibilityData)
    (h1 : memberId ≠ "") (h2 : dob ≠ "") (he : env.eligibility = .ok d)
    (_hdb : env.dbSave.success = false) :
    ∃ res res₂,
      (handleSubmit memberId dob true env).1 = .completed res
      ∧ (handleSubmit memberId dob true
          { env with dbSave := { success := true, id := env.dbSave.id } }).1
          = .completed res₂
      ∧ res.eligibility = res₂.eligibility ∧ res.eligibility = d
      ∧ res.coverage = res₂.coverage ∧ res.memberCard = res₂.memberCard := by
  have hee : ({ env with dbSave := { success := true, id := env.dbSave.id } }
      : SearchEnv).eligibility = .ok d := he
  refine ⟨{ eligibility := d
            coverage := (enrich d env).coverageData
            memberCard := (enrich d env).memberCardData
            patientName := patientNameOf
              (d.memberPolicies.head?.bind (fun p => p.patientInfo.head?))
            searchId := env.dbSave.id },
          { eligibility := d
            coverage := (enrich d env).coverageData
            memberCard := (enrich d env).memberCardData
            patientName := patientNameOf
              (d.memberPolicies.head?.bind (fun p => p.patientInfo.head?))
            searchId := env.dbSave.id }, ?_, ?_, rfl, rfl, rfl, rfl⟩
  · simp [handleSubmit, h1, h2, he]
  · have h3 : enrich d
        { eligibility := APIResponse.ok d, coverage := env.coverage
          memberCard := env.memberCard
          dbSave := { success := true, id := env.dbSave.id } } = enrich d env :=
      enrich_env_eq d _ env rfl rfl
    simp [handleSubmit, h1, h2, he, hee, h3]

/-- C8 witness: a concrete completed search whose persistence write failed
still hands the caller the same data as the run with a successful write. -/
theorem persistence_failure_nonfatal_witness :
    ∃ res res₂,
      (handleSubmit "M3" "05/06/1975" true
        { eligibility := .ok { memberPolicies := [] }
          coverage := .err { message := none, status := none }
          memberCard := .err { message := none, status := none }
          dbSave := { success := false, id := none } }).1 = .completed res
      ∧ (handleSubmit "M3" "05/06/1975" true
          { eligibility := .ok { memberPolicies := [] }
            coverage := .err { message := none, status := none }
            memberCard := .err { message := none, status := none }
            dbSave := { success := true, id := none } }).1 = .completed res₂
      ∧ res.eligibility = res₂.eligibility
      ∧ res.eligibility = { memberPolicies := [] }
      ∧ res.coverage = res₂.coverage ∧ res.memberCard = res₂.memberCard :=
  persistence_failure_nonfatal "M3" "05/06/1975" _ _
    (by decide) (by decide) rfl rfl

/-- C10: date-of-birth conversion is the identity off its expected shape:
any input that does not split on '/' into exactly three parts (an
ISO-formatted date, a malformed entry) is returned unchanged, and the
eligibility lookup of a submitted search receives exactly that unvalidated
string. -/
theorem formatDateOfBirth_identity (str : String)
    (h : (jsSplit str '/').length ≠ 3) :
    formatDateOfBirth str = str
    ∧ ∀ (memberId : String) (env : SearchEnv), memberId ≠ "" → str ≠ "" →
        (handleSubmit memberId str true env).2.eligDob = some str := by
  have hid : formatDateOfBirth str = str := by
    unfold formatDateOfBirth
    split
    · next m dd y heq => exact absurd (by rw [heq]; rfl) h
    · rfl
  refine ⟨hid, ?_⟩
  intro memberId env hm hs
  cases henv : env.eligibility <;> simp [handleSubmit, hm, hs, henv, hid]

/-- C10 witness: the already ISO-formatted "1980-05-01" is forwarded to the
eligibility lookup unchanged. -/
theorem formatDateOfBirth_identity_witness :
    formatDateOfBirth "1980-05-01" = "1980-05-01"
    ∧ (handleSubmit "M1" "1980-05-01" true
        { eligibility := .err { message := none, status := none }
          coverage := .err { message := none, status := none }
          memberCard := .err { message := none, status := none }
          dbSave := { success := false, id := none } }).2.eligDob
        = some "1980-05-01" :=
  ⟨(formatDateOfBirth_identity "1980-05-01" (by decide)).1,
   (formatDateOfBirth_identity "1980-05-01" (by decide)).2 "M1" _
     (by decide) (by decide)⟩

end UHC
